import Mathlib

/-!
Verification of the detection-to-decision pipeline of the Smart Traffic
Signal Optimization System (`src/app.py`).

The domain logic of the repository lives in two small functions plus the
video branch's control flow:

* `process_frame` (app.py lines 99-112): folds over the detections returned
  by the detector, counting each detection whose class label is a key of the
  `vehicle_types` dict (car, truck, bus, motorcycle, bicycle);
* `traffic_logic` (app.py lines 117-120): cascading thresholds mapping the
  vehicle count to a density tier, a green-signal duration and a status
  string;
* the video section (app.py lines 125-145): reads the first frame of the
  uploaded video and runs the pipeline only when the read succeeded.

The embedding below mirrors those functions.  The detector itself
(`model.predict`) is an external black box; it is modelled as an arbitrary
function producing a list of detections.
-/

namespace SmartTraffic

/-- One detection produced by the detector adapter: class label, confidence,
bounding box, mirroring the Detection record (app.py line 106-108 reads
`box.cls`; confidence and box geometry are never read by the aggregation). -/
structure Detection where
  label : String
  confidence : Rat
  box : Rat × Rat × Rat × Rat
deriving DecidableEq, Repr

/-- The per-class vehicle counts: the `vehicle_types` dict of app.py line 102,
with its five fixed keys in insertion order. -/
structure VehicleTally where
  car : Nat
  truck : Nat
  bus : Nat
  motorcycle : Nat
  bicycle : Nat
deriving DecidableEq, Repr

/-- The initial dict `{"car":0,"truck":0,"bus":0,"motorcycle":0,"bicycle":0}`
(app.py line 102). -/
def emptyTally : VehicleTally := ⟨0, 0, 0, 0, 0⟩

/-- The keys of the `vehicle_types` dict: the membership test
`label in vehicle_types` (app.py line 109) tests membership in this list. -/
def vehicleWhitelist : List String := ["car", "truck", "bus", "motorcycle", "bicycle"]

/-- `vehicle_types[label] += 1` (app.py line 110): bump the field named by
`label`; any other label leaves the tally unchanged (unreachable in the
source because the increment is guarded by the membership test). -/
def tallyAdd (t : VehicleTally) (label : String) : VehicleTally :=
  if label = "car" then { t with car := t.car + 1 }
  else if label = "truck" then { t with truck := t.truck + 1 }
  else if label = "bus" then { t with bus := t.bus + 1 }
  else if label = "motorcycle" then { t with motorcycle := t.motorcycle + 1 }
  else if label = "bicycle" then { t with bicycle := t.bicycle + 1 }
  else t

/-- The body of the detection loop (app.py lines 109-111): when the label is
in the whitelist, increment that class's count and the running total;
otherwise the detection is ignored. -/
def countStep (acc : Nat × VehicleTally) (d : Detection) : Nat × VehicleTally :=
  if d.label ∈ vehicleWhitelist then (acc.1 + 1, tallyAdd acc.2 d.label) else acc

/-- `process_frame` (app.py lines 99-112), restricted to its counting output:
starting from `vehicle_count = 0` and the all-zero dict, fold the loop body
over the detections.  (The annotated frame it also returns is presentation
output, handled separately.) -/
def process_frame (ds : List Detection) : Nat × VehicleTally :=
  ds.foldl countStep (0, emptyTally)

/-- The sum of the five per-class counts of a tally. -/
def sumFive (t : VehicleTally) : Nat :=
  t.car + t.truck + t.bus + t.motorcycle + t.bicycle

/-- `traffic_logic` (app.py lines 117-120), verbatim: cascading comparisons
on the (Python integer) vehicle count, returning density tier, green time
and the status string — including the emoji prefix present in the source. -/
def traffic_logic (vehicle_count : Int) : String × Int × String :=
  if vehicle_count ≤ 10 then ("LOW", 15, "🟢 Smooth Traffic")
  else if vehicle_count ≤ 25 then ("MEDIUM", 30, "🟡 Moderate Traffic")
  else ("HIGH", 45, "🔴 Heavy Congestion")

/-- The density tier component of `traffic_logic`. -/
def tierOf (n : Int) : String := (traffic_logic n).1

/-- The green-signal seconds component of `traffic_logic`. -/
def greenOf (n : Int) : Int := (traffic_logic n).2.1

/-- The composed pipeline on a list of detections (app.py lines 136-137 /
157-158): aggregate, then apply the traffic logic to the total count. -/
def pipeline (ds : List Detection) : Nat × VehicleTally × String × Int × String :=
  let r := process_frame ds
  (r.1, r.2, traffic_logic (r.1 : Int))

/-- A decoded frame buffer, abstracted to its contents; only the control flow
of the video branch depends on it. -/
def Frame := List Nat

/-- The error kinds named by the specification (§7).  The source defines no
error classes; this type is the observation vocabulary needed to state
whether the video branch surfaces one of them. -/
inductive PipeError where
  | DetectionError : PipeError
  | EmptyFrameError : PipeError
deriving DecidableEq, Repr

/-- What the video section does after attempting to read the first frame:
display a result, silently skip the analysis, or surface an error. -/
inductive VideoOutcome where
  | shown : Nat × VehicleTally × String × Int × String → VideoOutcome
  | skipped : VideoOutcome
  | errored : PipeError → VideoOutcome
deriving DecidableEq, Repr

/-- The video section (app.py lines 131-145): `ret, frame = cap.read()` is
modelled as an `Option Frame`; on `if ret:` the pipeline runs on the frame's
detections, and when the read fails the source has no else branch — the
analysis block is simply not executed.  `det` is the black-box detector. -/
def videoSection (det : Frame → List Detection) (firstFrame : Option Frame) :
    VideoOutcome :=
  match firstFrame with
  | some f => VideoOutcome.shown (pipeline (det f))
  | none => VideoOutcome.skipped

/-! Helper lemmas about the counting fold. -/

/-- Incrementing a whitelisted class's count raises the sum of the five
counts by exactly one. -/
theorem sumFive_tallyAdd (t : VehicleTally) (l : String) (h : l ∈ vehicleWhitelist) :
    sumFive (tallyAdd t l) = sumFive t + 1 := by
  unfold tallyAdd
  split_ifs with h1 h2 h3 h4 h5
  · simp [sumFive]; omega
  · simp [sumFive]; omega
  · simp [sumFive]; omega
  · simp [sumFive]; omega
  · simp [sumFive]; omega
  · exfalso
    simp [vehicleWhitelist] at h
    tauto

/-- The loop invariant of app.py lines 104-111: the running total tracks the
sum of the per-class counts. -/
theorem foldl_count_eq_sum (ds : List Detection) :
    ∀ acc : Nat × VehicleTally, acc.1 = sumFive acc.2 →
      (List.foldl countStep acc ds).1 = sumFive (List.foldl countStep acc ds).2 := by
  induction ds with
  | nil => intro acc h; simpa using h
  | cons d ds ih =>
    intro acc h
    rw [List.foldl_cons]
    apply ih
    unfold countStep
    split_ifs with hd
    · simpa [sumFive_tallyAdd _ _ hd] using h
    · exact h

/-- Detections outside the whitelist are invisible to the counting fold. -/
theorem foldl_filter (ds : List Detection) :
    ∀ acc : Nat × VehicleTally,
      List.foldl countStep acc ds =
        List.foldl countStep acc
          (ds.filter fun d => decide (d.label ∈ vehicleWhitelist)) := by
  induction ds with
  | nil => intro acc; rfl
  | cons d ds ih =>
    intro acc
    by_cases hd : d.label ∈ vehicleWhitelist
    · rw [List.filter_cons_of_pos (by simpa using hd), List.foldl_cons,
        List.foldl_cons]
      exact ih _
    · rw [List.filter_cons_of_neg (by simpa using hd), List.foldl_cons,
        show countStep acc d = acc from by simp [countStep, hd]]
      exact ih acc

/-- Field-wise description of one increment: each class count is bumped
exactly when the label names that class. -/
theorem tallyAdd_fields (t : VehicleTally) (l : String) :
    tallyAdd t l =
      ⟨t.car + (if l = "car" then 1 else 0),
       t.truck + (if l = "truck" then 1 else 0),
       t.bus + (if l = "bus" then 1 else 0),
       t.motorcycle + (if l = "motorcycle" then 1 else 0),
       t.bicycle + (if l = "bicycle" then 1 else 0)⟩ := by
  unfold tallyAdd
  split_ifs with h1 h2 h3 h4 h5 <;> simp_all

/-- Two increments on the tally commute. -/
theorem tallyAdd_comm (t : VehicleTally) (l1 l2 : String) :
    tallyAdd (tallyAdd t l1) l2 = tallyAdd (tallyAdd t l2) l1 := by
  simp only [tallyAdd_fields, VehicleTally.mk.injEq]
  refine ⟨?_, ?_, ?_, ?_, ?_⟩ <;> omega

/-- The loop body of app.py lines 106-111 is left-commutative. -/
theorem countStep_comm (acc : Nat × VehicleTally) (d1 d2 : Detection) :
    countStep (countStep acc d1) d2 = countStep (countStep acc d2) d1 := by
  unfold countStep
  split_ifs <;> simp [tallyAdd_comm]

/-- Folding the loop body is invariant under permutation of the detections. -/
theorem foldl_countStep_perm {ds1 ds2 : List Detection} (h : ds1.Perm ds2) :
    ∀ acc, List.foldl countStep acc ds1 = List.foldl countStep acc ds2 := by
  induction h with
  | nil => intro acc; rfl
  | cons x h ih => intro acc; rw [List.foldl_cons, List.foldl_cons]; exact ih _
  | swap x y l => intro acc; rw [List.foldl_cons, List.foldl_cons,
      List.foldl_cons, List.foldl_cons, countStep_comm]
  | trans h1 h2 ih1 ih2 => intro acc; rw [ih1, ih2]

/-! Claims about the density classifier and the signal timer. -/

/-- C1: For every non-negative integer `n` the density classifier returns
LOW iff `n ≤ 10`, MEDIUM iff `11 ≤ n ≤ 25`, HIGH iff `n ≥ 26`; the boundary
inputs 10, 11, 25, 26 classify as LOW, MEDIUM, MEDIUM, HIGH respectively. -/
theorem classify_thresholds (n : Int) (hn : 0 ≤ n) :
    ((tierOf n = "LOW" ↔ n ≤ 10) ∧
      (tierOf n = "MEDIUM" ↔ 11 ≤ n ∧ n ≤ 25) ∧
      (tierOf n = "HIGH" ↔ 26 ≤ n)) ∧
    (tierOf 10 = "LOW" ∧ tierOf 11 = "MEDIUM" ∧
      tierOf 25 = "MEDIUM" ∧ tierOf 26 = "HIGH") := by
  refine ⟨⟨?_, ?_, ?_⟩, by decide, by decide, by decide, by decide⟩ <;>
    · unfold tierOf traffic_logic
      split_ifs with h1 h2 <;> simp <;> omega

/-- Witness for `classify_thresholds` at the concrete input 0. -/
theorem classify_thresholds_witness : tierOf 26 = "HIGH" :=
  (classify_thresholds 0 (by decide)).2.2.2.2

/-- C10: The recommended green time is monotone non-decreasing in the
vehicle count, and every integer input (negative ones included) yields one of
the three tiers. -/
theorem green_time_monotone (m n : Int) (hmn : m ≤ n) :
    greenOf m ≤ greenOf n ∧
    (tierOf m = "LOW" ∨ tierOf m = "MEDIUM" ∨ tierOf m = "HIGH") := by
  constructor
  · unfold greenOf traffic_logic
    split_ifs <;> simp <;> omega
  · unfold tierOf traffic_logic
    split_ifs <;> simp

/-- Witness for `green_time_monotone` at the concrete inputs -5 ≤ 0. -/
theorem green_time_monotone_witness :
    greenOf (-5) ≤ greenOf 0 ∧
    (tierOf (-5) = "LOW" ∨ tierOf (-5) = "MEDIUM" ∨ tierOf (-5) = "HIGH") :=
  green_time_monotone (-5) 0 (by decide)

/-- Counterexample to the claim that the status label for tier LOW is the
string "Smooth Traffic": the source string carries an emoji prefix. -/
theorem decide_lookup_cex :
    tierOf 0 = "LOW" ∧ (traffic_logic 0).2.2 ≠ "Smooth Traffic" := by
  decide

/-- C2 (amended): whenever `traffic_logic` yields a given tier, the green
seconds and status string are the fixed pair of that tier — with the status
strings as they appear in the source, emoji prefix included. -/
theorem decide_lookup (n : Int) :
    (tierOf n = "LOW" → (traffic_logic n).2 = (15, "🟢 Smooth Traffic")) ∧
    (tierOf n = "MEDIUM" → (traffic_logic n).2 = (30, "🟡 Moderate Traffic")) ∧
    (tierOf n = "HIGH" → (traffic_logic n).2 = (45, "🔴 Heavy Congestion")) := by
  unfold tierOf traffic_logic
  split_ifs <;> decide

/-- Witness for `decide_lookup` at the concrete count 5 (tier LOW). -/
theorem decide_lookup_witness : (traffic_logic 5).2 = (15, "🟢 Smooth Traffic") :=
  (decide_lookup 5).1 (by decide)

/-! Claims about the vehicle aggregation. -/

/-- C3: the running total maintained by the detection loop always equals the
sum of the five per-class counts, and detections outside the whitelist never
contribute: filtering them away first yields the same result. -/
theorem total_eq_sum_of_counts (ds : List Detection) :
    (process_frame ds).1 = sumFive (process_frame ds).2 ∧
    process_frame ds =
      process_frame (ds.filter fun d => decide (d.label ∈ vehicleWhitelist)) := by
  exact ⟨foldl_count_eq_sum ds (0, emptyTally) rfl, foldl_filter ds (0, emptyTally)⟩

/-- C4: the effect of one detection on the accumulator: a whitelisted label
bumps exactly its own class count and the total by one (the detection's
confidence and box are never consulted), and any other label leaves the
accumulator unchanged (and, the function being total, raises no error). -/
theorem whitelist_step_effect (acc : Nat × VehicleTally) (d : Detection) :
    (d.label = "car" →
      countStep acc d = (acc.1 + 1, { acc.2 with car := acc.2.car + 1 })) ∧
    (d.label = "truck" →
      countStep acc d = (acc.1 + 1, { acc.2 with truck := acc.2.truck + 1 })) ∧
    (d.label = "bus" →
      countStep acc d = (acc.1 + 1, { acc.2 with bus := acc.2.bus + 1 })) ∧
    (d.label = "motorcycle" →
      countStep acc d = (acc.1 + 1, { acc.2 with motorcycle := acc.2.motorcycle + 1 })) ∧
    (d.label = "bicycle" →
      countStep acc d = (acc.1 + 1, { acc.2 with bicycle := acc.2.bicycle + 1 })) ∧
    (d.label ∉ vehicleWhitelist → countStep acc d = acc) := by
  refine ⟨fun h => ?_, fun h => ?_, fun h => ?_, fun h => ?_, fun h => ?_,
    fun h => ?_⟩
  · simp [countStep, tallyAdd, vehicleWhitelist, h]
  · simp [countStep, tallyAdd, vehicleWhitelist, h]
  · simp [countStep, tallyAdd, vehicleWhitelist, h]
  · simp [countStep, tallyAdd, vehicleWhitelist, h]
  · simp [countStep, tallyAdd, vehicleWhitelist, h]
  · simp [countStep, h]

/-- Witness for `whitelist_step_effect`: a "person" detection (confidence
1/2) leaves the empty accumulator unchanged. -/
theorem whitelist_step_effect_witness :
    countStep (0, emptyTally) ⟨"person", 1/2, (0, 0, 1, 1)⟩ = (0, emptyTally) :=
  (whitelist_step_effect (0, emptyTally) ⟨"person", 1/2, (0, 0, 1, 1)⟩).2.2.2.2.2
    (by decide)

/-- C7: aggregation is order-independent: permuting the detections changes
neither the per-class counts nor the total. -/
theorem aggregate_perm_invariant (ds1 ds2 : List Detection) (h : ds1.Perm ds2) :
    process_frame ds1 = process_frame ds2 :=
  foldl_countStep_perm h (0, emptyTally)

/-- Witness for `aggregate_perm_invariant`: swapping two concrete detections
yields the same tally. -/
theorem aggregate_perm_invariant_witness :
    process_frame [⟨"car", 1, (0, 0, 1, 1)⟩, ⟨"bus", 1, (0, 0, 1, 1)⟩] =
      process_frame [⟨"bus", 1, (0, 0, 1, 1)⟩, ⟨"car", 1, (0, 0, 1, 1)⟩] :=
  aggregate_perm_invariant _ _ (List.Perm.swap _ _ _)

/-- C8: aggregation keeps no mutable state across calls: any number of
invocations on the same detection list all return the value of a single
invocation.  (The pure embedding is faithful because the source initializes
`vehicle_count` and `vehicle_types` locally at every call, app.py lines
101-102.) -/
theorem aggregate_no_hidden_state (ds : List Detection) (n : Nat) :
    (List.replicate n ds).map process_frame =
      List.replicate n (process_frame ds) := by
  simp

/-! Claims about the end-to-end pipeline and its error behavior. -/

/-- Counterexample to the claim that zero detections yield the status string
"Smooth Traffic": the source string carries an emoji prefix. -/
theorem zero_detections_cex :
    pipeline [] ≠ (0, emptyTally, "LOW", 15, "Smooth Traffic") := by
  decide

/-- C6 (amended): zero detections is a valid, fully populated, non-error
outcome: all-zero tally, total 0, tier LOW, 15 green seconds and the
source's LOW status string. -/
theorem zero_detections_ok :
    pipeline [] = (0, emptyTally, "LOW", 15, "🟢 Smooth Traffic") := by
  decide

/-- A detector stub returning no detections, used to evaluate the video
section at a concrete point. -/
def nullDetector : Frame → List Detection := fun _ => []

/-- Counterexample to the claim that an unreadable first frame makes the
pipeline fail with `EmptyFrameError`: the video section merely skips the
analysis and surfaces no error value. -/
theorem empty_frame_cex :
    videoSection nullDetector none = VideoOutcome.skipped ∧
    videoSection nullDetector none ≠ VideoOutcome.errored PipeError.EmptyFrameError := by
  decide

/-- C5 (amended): when no frame can be read the video section produces no
result — zero detections are not substituted — but it also surfaces no
error of any kind: the analysis is silently skipped. -/
theorem empty_frame_skips (det : Frame → List Detection) :
    videoSection det none = VideoOutcome.skipped ∧
    ∀ e : PipeError, videoSection det none ≠ VideoOutcome.errored e := by
  exact ⟨rfl, fun e h => by simp [videoSection] at h⟩

/-- Witness for `empty_frame_skips` at the concrete null detector. -/
theorem empty_frame_skips_witness :
    videoSection nullDetector none = VideoOutcome.skipped ∧
    videoSection nullDetector none ≠ VideoOutcome.errored PipeError.DetectionError :=
  ⟨(empty_frame_skips nullDetector).1,
    (empty_frame_skips nullDetector).2 PipeError.DetectionError⟩

end SmartTraffic
